import Mathlib

/-!
# Shallow embedding of `chip8.py` (mxbi/chip8emu)

The emulator is a single Python class `Chip8`.  Its mutable attributes become
the fields of the `Chip8` structure below; every opcode method `op_*` becomes a
Lean function of the same name taking the 16-bit opcode word and the state.
Python machine integers are unbounded, so all arithmetic is over `Nat` with
explicit `% 256` / `% 65536` where the code applies `_8bit` / `_16bit`.

Python exceptions are modelled by `PyOutcome`: an operation either returns the
updated state (`ok`) or raises an exception (`exn`), carrying the exception
class name and the state at the moment of the raise (in Python the mutations
already performed on `self` persist when an exception propagates).

Python list reads `l[i]` are modelled with `List.getD l i 0`; in the states
used by the theorems below every such read is in range, where Python would
raise `IndexError` only out of range.  Python slice reads `l[a:b]` and slice
assignments `l[a:b] = r` (which clamp the indices to the list length and may
change the list's length when `r` has a different length than the selected
slice) are modelled by `pySlice` and `pySetSlice`.
-/

/-- Machine state: the mutable attributes set up in `Chip8.__init__`.
`ram` has 4096 byte cells, `V` the sixteen 8-bit registers, `I` the 16-bit
index register, `pc` the program counter, `stack` the 16-slot call stack
(initialised to `None`, hence `Option`), `sp` the stack pointer, `t_delay` and
`t_sound` the two timers, `display` the 64*32 monochrome frame buffer and
`clock` the cycle counter. -/
structure Chip8 where
  ram : List Nat
  V : List Nat
  I : Nat
  pc : Nat
  stack : List (Option Nat)
  sp : Nat
  t_delay : Nat
  t_sound : Nat
  display : List Nat
  clock : Nat
  deriving Repr, DecidableEq

/-- Outcome of running a piece of the emulator: either the updated state, or a
Python exception (its class name) together with the state at the raise. -/
inductive PyOutcome where
  | ok (s : Chip8)
  | exn (kind : String) (s : Chip8)
  deriving Repr, DecidableEq

/-- The state carried by an outcome (final state, or state at the raise). -/
def PyOutcome.state : PyOutcome → Chip8
  | .ok s => s
  | .exn _ s => s

/-- The exception class name, if the outcome is an exception. -/
def PyOutcome.exnKind : PyOutcome → Option String
  | .ok _ => none
  | .exn k _ => some k

/-- `clock_speed` attribute: 512 cycles per second. -/
def clock_speed : Nat := 512

/-- `rtc_mod` attribute: `clock_speed // 60`, the cycle period of the 60 Hz
timer tick in `_cycle_clock`. -/
def rtc_mod : Nat := clock_speed / 60

/-- Python slice read `l[a:b]` for non-negative `a`, `b`: indices clamp to the
list length, and an empty list results when `b ≤ a`. -/
def pySlice (l : List Nat) (a b : Nat) : List Nat :=
  let start := min a l.length
  let stop := max start (min b l.length)
  (l.take stop).drop start

/-- Python slice assignment `l[a:b] = r` for non-negative `a`, `b`: the
clamped slice is removed and `r` is spliced in, so the result's length is
`l.length - (stop - start) + r.length`. -/
def pySetSlice (l : List Nat) (a b : Nat) (r : List Nat) : List Nat :=
  let start := min a l.length
  let stop := max start (min b l.length)
  l.take start ++ r ++ l.drop stop

/-- `_8bit`: emulate 8-bit overflow and underflow. -/
def eightBit (val : Nat) : Nat := val % 256

/-- `_16bit`: emulate 16-bit overflow and underflow. -/
def sixteenBit (val : Nat) : Nat := val % 65536

/-- The 80-byte font sprite data written to `ram[:80]` in `__init__`. -/
def fontData : List Nat :=
  [0xF0, 0x90, 0x90, 0x90, 0xF0,
   0x20, 0x60, 0x20, 0x20, 0x70,
   0xF0, 0x10, 0xF0, 0x80, 0xF0,
   0xF0, 0x10, 0xF0, 0x10, 0xF0,
   0x90, 0x90, 0xF0, 0x10, 0x10,
   0xF0, 0x80, 0xF0, 0x10, 0xF0,
   0xF0, 0x80, 0xF0, 0x90, 0xF0,
   0xF0, 0x10, 0x20, 0x40, 0x40,
   0xF0, 0x90, 0xF0, 0x90, 0xF0,
   0xF0, 0x90, 0xF0, 0x10, 0xF0,
   0xF0, 0x90, 0xF0, 0x90, 0x90,
   0xE0, 0x90, 0xE0, 0x90, 0xE0,
   0xF0, 0x80, 0x80, 0x80, 0xF0,
   0xE0, 0x90, 0x90, 0x90, 0xE0,
   0xF0, 0x80, 0xF0, 0x80, 0xF0,
   0xF0, 0x80, 0xF0, 0x80, 0x80]

/-- `load_rom`: write the ROM bytes one by one into `ram` starting at the
given pointer (0x200). -/
def loadBytes : List Nat → Nat → List Nat → List Nat
  | ram, _, [] => ram
  | ram, ptr, b :: bs => loadBytes (ram.set ptr b) (ptr + 1) bs

/-- `Chip8.__init__` with the given ROM byte list: zeroed 4K ram, the ROM
loaded at 0x200, then the font written over `ram[:80]`; 16 zeroed registers,
`pc = 0x200`, an empty 16-slot stack, zeroed timers and a blank display. -/
def initChip8 (rom : List Nat) : Chip8 :=
  { ram := pySetSlice (loadBytes (List.replicate 4096 0) 0x200 rom) 0 80 fontData
    V := List.replicate 16 0
    I := 0
    pc := 0x200
    stack := List.replicate 16 none
    sp := 0
    t_delay := 0
    t_sound := 0
    display := List.replicate (64 * 32) 0
    clock := 0 }

/-- `op_1NNN`: goto NNN (sets `pc` directly). -/
def op_1NNN (opcode : Nat) (s : Chip8) : Chip8 :=
  { s with pc := opcode &&& 0x0FFF }

/-- `op_2NNN`: call subroutine.  The code stores the current `pc` at
`stack[sp]` and jumps; it never changes `sp`.  Python raises `IndexError` when
`sp` is outside the 16-slot stack. -/
def op_2NNN (opcode : Nat) (s : Chip8) : PyOutcome :=
  if s.sp < s.stack.length then
    PyOutcome.ok { s with stack := s.stack.set s.sp (some s.pc), pc := opcode &&& 0x0FFF }
  else
    PyOutcome.exn "IndexError" s

/-- `op_3XNN`: skip the next instruction if `V[X] == NN`. -/
def op_3XNN (opcode : Nat) (s : Chip8) : Chip8 :=
  if s.V.getD ((opcode &&& 0x0F00) >>> 8) 0 = (opcode &&& 0x00FF) then
    { s with pc := s.pc + 2 }
  else s

/-- `op_4XNN`: skip the next instruction if `V[X] != NN`. -/
def op_4XNN (opcode : Nat) (s : Chip8) : Chip8 :=
  if s.V.getD ((opcode &&& 0x0F00) >>> 8) 0 ≠ (opcode &&& 0x00FF) then
    { s with pc := s.pc + 2 }
  else s

/-- `op_5XY0`: skip the next instruction if `V[X] == V[Y]`. -/
def op_5XY0 (opcode : Nat) (s : Chip8) : Chip8 :=
  if s.V.getD ((opcode &&& 0x0F00) >>> 8) 0 = s.V.getD ((opcode &&& 0x00F0) >>> 4) 0 then
    { s with pc := s.pc + 2 }
  else s

/-- `op_6XNN`: set `V[X]` to NN. -/
def op_6XNN (opcode : Nat) (s : Chip8) : Chip8 :=
  { s with V := s.V.set ((opcode &&& 0x0F00) >>> 8) (opcode &&& 0x00FF) }

/-- `op_7XNN`: `V[X] := _8bit(V[X] + NN)`. -/
def op_7XNN (opcode : Nat) (s : Chip8) : Chip8 :=
  { s with V := (s.V.set ((opcode &&& 0x0F00) >>> 8)
      (eightBit (s.V.getD ((opcode &&& 0x0F00) >>> 8) 0 + (opcode &&& 0x00FF)))) }

/-- `op_8XY0`: `V[X] := V[Y]`. -/
def op_8XY0 (opcode : Nat) (s : Chip8) : Chip8 :=
  { s with V := s.V.set ((opcode &&& 0x0F00) >>> 8) (s.V.getD ((opcode &&& 0x00F0) >>> 4) 0) }

/-- `op_8XY1`: `V[X] := V[X] | V[Y]`. -/
def op_8XY1 (opcode : Nat) (s : Chip8) : Chip8 :=
  { s with V := (s.V.set ((opcode &&& 0x0F00) >>> 8)
      (s.V.getD ((opcode &&& 0x0F00) >>> 8) 0 ||| s.V.getD ((opcode &&& 0x00F0) >>> 4) 0)) }

/-- `op_8XY2` as written in the source (line 164): the AND of `V[X]` and
`V[Y]` is stored at index `(opcode & 0x00F0) >> 4`, i.e. into `V[Y]`. -/
def op_8XY2 (opcode : Nat) (s : Chip8) : Chip8 :=
  { s with V := (s.V.set ((opcode &&& 0x00F0) >>> 4)
      (s.V.getD ((opcode &&& 0x0F00) >>> 8) 0 &&& s.V.getD ((opcode &&& 0x00F0) >>> 4) 0)) }

/-- `op_8XY3` as written in the source (line 167): the XOR is likewise stored
into `V[Y]`. -/
def op_8XY3 (opcode : Nat) (s : Chip8) : Chip8 :=
  { s with V := (s.V.set ((opcode &&& 0x00F0) >>> 4)
      (s.V.getD ((opcode &&& 0x0F00) >>> 8) 0 ^^^ s.V.getD ((opcode &&& 0x00F0) >>> 4) 0)) }

/-- `op_8XY4` as written in the source (lines 170-172): the overflow flag is
`int(sum > 0xFFFF)` — the comparison is against 65535, not 255 — written to
`V[0xF]` before `V[X] := _8bit(sum)`. -/
def op_8XY4 (opcode : Nat) (s : Chip8) : Chip8 :=
  let sum := s.V.getD ((opcode &&& 0x0F00) >>> 8) 0 + s.V.getD ((opcode &&& 0x00F0) >>> 4) 0
  let s1 := { s with V := s.V.set 0xF (if sum > 0xFFFF then 1 else 0) }
  { s1 with V := s1.V.set ((opcode &&& 0x0F00) >>> 8) (eightBit sum) }

/-- `op_8XY5` as written in the source (lines 175-177): `sub` is computed as
`V[X] + V[Y]` (an addition), `V[0xF] := int(sub > 0)`, and then line 177
evaluates `self._8bit(sum)` where `sum` is not a local variable but the Python
builtin function, so `sum % 256` raises `TypeError`.  The `V[0xF]` write
performed before the raise persists. -/
def op_8XY5 (opcode : Nat) (s : Chip8) : PyOutcome :=
  let sub := s.V.getD ((opcode &&& 0x0F00) >>> 8) 0 + s.V.getD ((opcode &&& 0x00F0) >>> 4) 0
  let s1 := { s with V := s.V.set 0xF (if sub > 0x0000 then 1 else 0) }
  PyOutcome.exn "TypeError" s1

/-- `op_8000`: dispatch on `opcode & 0xF00F`; a key outside 0x8000-0x8005
raises `KeyError` from the dict lookup. -/
def op_8000 (opcode : Nat) (s : Chip8) : PyOutcome :=
  let m := opcode &&& 0xF00F
  if m = 0x8000 then .ok (op_8XY0 opcode s)
  else if m = 0x8001 then .ok (op_8XY1 opcode s)
  else if m = 0x8002 then .ok (op_8XY2 opcode s)
  else if m = 0x8003 then .ok (op_8XY3 opcode s)
  else if m = 0x8004 then .ok (op_8XY4 opcode s)
  else if m = 0x8005 then op_8XY5 opcode s
  else .exn "KeyError" s

/-- `op_ANNN`: `I := NNN`. -/
def op_ANNN (opcode : Nat) (s : Chip8) : Chip8 :=
  { s with I := opcode &&& 0x0FFF }

/-- `op_BNNN`: `pc := V[0] + NNN`. -/
def op_BNNN (opcode : Nat) (s : Chip8) : Chip8 :=
  { s with pc := s.V.getD 0 0 + (opcode &&& 0x0FFF) }

/-- `op_CXNN`: `V[X] := randint(0,255) & NN`; the random draw is passed in as
the `rand` parameter. -/
def op_CXNN (rand opcode : Nat) (s : Chip8) : Chip8 :=
  { s with V := s.V.set ((opcode &&& 0x0F00) >>> 8) (rand &&& (opcode &&& 0x00FF)) }

/-- The row list `[int(i) for i in '{0:08b}'.format(b)]` for a byte `b < 256`:
the 8 bits of `b`, most significant first. -/
def toBits8 (b : Nat) : List Nat :=
  [(b >>> 7) &&& 1, (b >>> 6) &&& 1, (b >>> 5) &&& 1, (b >>> 4) &&& 1,
   (b >>> 3) &&& 1, (b >>> 2) &&& 1, (b >>> 1) &&& 1, b &&& 1]

/-- The `for y_offset in range(h)` loop body of `op_DXYN`: for each row, the
8-bit row of `ram[ptr]` is written by the slice assignment
`display[y * 64 + x0 : y + 64 + x0 + 8] = row` (note the `y + 64`, exactly as
in line 192 of the source), then `ptr` advances. -/
def dxynRows (ram : List Nat) (x0 y0 : Nat) : Nat → Nat → Nat → List Nat → List Nat
  | _, _, 0, disp => disp
  | ptr, yOff, n + 1, disp =>
      let row := toBits8 (ram.getD ptr 0)
      let y := y0 + yOff
      dxynRows ram x0 y0 (ptr + 1) (yOff + 1) n
        (pySetSlice disp (y * 64 + x0) (y + 64 + x0 + 8) row)

/-- `op_DXYN` as written in the source (lines 184-193): `x0 = opcode & 0x0F00`
and `y0 = opcode & 0x00F0` (unshifted mask values, not register reads), `h`
rows are copied into `display` by slice assignment (no XOR), and `V[0xF]` is
never written. -/
def op_DXYN (opcode : Nat) (s : Chip8) : Chip8 :=
  { s with display :=
      (dxynRows s.ram (opcode &&& 0x0F00) (opcode &&& 0x00F0) s.I 0 (opcode &&& 0x000F)
        s.display) }

/-- `op_FX29`: raises `ValueError` when `V[X] > 0xF`, otherwise copies the
4-byte slice `ram[Vx*4:(Vx+1)*4]` over `ram[I:I+4]`. -/
def op_FX29 (opcode : Nat) (s : Chip8) : PyOutcome :=
  let Vx := s.V.getD ((opcode &&& 0x0F00) >>> 8) 0
  if Vx > 0xF then .exn "ValueError" s
  else .ok { s with ram := pySetSlice s.ram s.I (s.I + 4) (pySlice s.ram (Vx * 4) ((Vx + 1) * 4)) }

/-- `op_FX33`: BCD of `V[X]` into `ram[I]`, `ram[I+1]`, `ram[I+2]`.  Each
index assignment raises `IndexError` out of range, keeping earlier writes. -/
def op_FX33 (opcode : Nat) (s : Chip8) : PyOutcome :=
  let Vx := s.V.getD ((opcode &&& 0x0F00) >>> 8) 0
  if s.I < s.ram.length then
    let r1 := s.ram.set s.I (Vx / 100)
    if s.I + 1 < r1.length then
      let r2 := r1.set (s.I + 1) (Vx % 100 / 10)
      if s.I + 2 < r2.length then .ok { s with ram := r2.set (s.I + 2) (Vx % 10) }
      else .exn "IndexError" { s with ram := r2 }
    else .exn "IndexError" { s with ram := r1 }
  else .exn "IndexError" s

/-- `op_FX55`: copy `V[0..X]` into ram beginning at `I` by slice assignment. -/
def op_FX55 (opcode : Nat) (s : Chip8) : Chip8 :=
  let vslice := pySlice s.V 0 (((opcode &&& 0x0F00) >>> 8) + 1)
  { s with ram := pySetSlice s.ram s.I (s.I + vslice.length) vslice }

/-- `op_FX65`: copy `ram[I..I+X]` into `V[0..X]` by slice assignment. -/
def op_FX65 (opcode : Nat) (s : Chip8) : Chip8 :=
  let x := (opcode &&& 0x0F00) >>> 8
  let ramSlice := pySlice s.ram s.I (s.I + x + 1)
  { s with V := pySetSlice s.V 0 (x + 1) ramSlice }

/-- `op_F000`: dispatch on `opcode & 0x00FF`; any other key raises `KeyError`
from the dict lookup. -/
def op_F000 (opcode : Nat) (s : Chip8) : PyOutcome :=
  let m := opcode &&& 0x00FF
  if m = 0x29 then op_FX29 opcode s
  else if m = 0x33 then op_FX33 opcode s
  else if m = 0x55 then .ok (op_FX55 opcode s)
  else if m = 0x65 then .ok (op_FX65 opcode s)
  else .exn "KeyError" s

/-- The `instructions` dispatch table keyed on `opcode & 0xF000`.  The table
has no entry for masks 0x0000 (so `00EE`/`00E0` are unimplemented), 0x9000 or
0xE000; looking those up raises `KeyError`. -/
def executeOp (rand opcode : Nat) (s : Chip8) : PyOutcome :=
  let m := opcode &&& 0xF000
  if m = 0x1000 then .ok (op_1NNN opcode s)
  else if m = 0x2000 then op_2NNN opcode s
  else if m = 0x3000 then .ok (op_3XNN opcode s)
  else if m = 0x4000 then .ok (op_4XNN opcode s)
  else if m = 0x5000 then .ok (op_5XY0 opcode s)
  else if m = 0x6000 then .ok (op_6XNN opcode s)
  else if m = 0x7000 then .ok (op_7XNN opcode s)
  else if m = 0x8000 then op_8000 opcode s
  else if m = 0xA000 then .ok (op_ANNN opcode s)
  else if m = 0xB000 then .ok (op_BNNN opcode s)
  else if m = 0xC000 then .ok (op_CXNN rand opcode s)
  else if m = 0xD000 then .ok (op_DXYN opcode s)
  else if m = 0xF000 then op_F000 opcode s
  else .exn "KeyError" s

/-- The fetch of `_cycle_clock` (line 85): the two bytes at `pc` and `pc + 1`
combined as `ram[pc] << 8 | ram[pc + 1]`. -/
def fetch (s : Chip8) : Nat :=
  (s.ram.getD s.pc 0) <<< 8 ||| s.ram.getD (s.pc + 1) 0

/-- The timer block at the end of `_cycle_clock`: every `rtc_mod`-th cycle,
decrement each of the two timers when positive. -/
def tickTimers (s : Chip8) : Chip8 :=
  if s.clock % rtc_mod = 0 then
    { s with
      t_delay := if s.t_delay > 0 then s.t_delay - 1 else s.t_delay
      t_sound := if s.t_sound > 0 then s.t_sound - 1 else s.t_sound }
  else s

/-- `_cycle_clock`: increment the clock, fetch, dispatch, then `pc += 2`
unconditionally, then the 60 Hz timer tick.  An exception raised by the
executed instruction propagates before the `pc += 2` and the timer tick. -/
def cycleClock (rand : Nat) (s : Chip8) : PyOutcome :=
  let s0 := { s with clock := s.clock + 1 }
  match executeOp rand (fetch s0) s0 with
  | .exn k s1 => .exn k s1
  | .ok s1 => .ok (tickTimers { s1 with pc := s1.pc + 2 })

/-! ## Helper lemmas -/

theorem length_toBits8 (b : Nat) : (toBits8 b).length = 8 := rfl

theorem fontData_length : fontData.length = 80 := rfl

theorem loadBytes_length (rom : List Nat) : ∀ (ram : List Nat) (ptr : Nat),
    (loadBytes ram ptr rom).length = ram.length := by
  induction rom with
  | nil => intro ram ptr; rfl
  | cons b bs ih => intro ram ptr; rw [loadBytes, ih, List.length_set]

theorem length_pySetSlice (l r : List Nat) (a b : Nat) :
    (pySetSlice l a b r).length =
      min a l.length + r.length + (l.length - max (min a l.length) (min b l.length)) := by
  simp [pySetSlice]
  omega

theorem initChip8_ram (rom : List Nat) :
    (initChip8 rom).ram = fontData ++ (loadBytes (List.replicate 4096 0) 0x200 rom).drop 80 := by
  have h : (loadBytes (List.replicate 4096 0) 0x200 rom).length = 4096 := by
    rw [loadBytes_length, List.length_replicate]
  show (loadBytes (List.replicate 4096 0) 0x200 rom).take
        (min 0 (loadBytes (List.replicate 4096 0) 0x200 rom).length) ++ fontData ++
      (loadBytes (List.replicate 4096 0) 0x200 rom).drop
        (max (min 0 (loadBytes (List.replicate 4096 0) 0x200 rom).length)
          (min 80 (loadBytes (List.replicate 4096 0) 0x200 rom).length)) =
      fontData ++ (loadBytes (List.replicate 4096 0) 0x200 rom).drop 80
  rw [h]
  norm_num

theorem loadBytes_two (b0 b1 : Nat) (ram : List Nat) (ptr : Nat) :
    loadBytes ram ptr [b0, b1] = (ram.set ptr b0).set (ptr + 1) b1 := rfl

theorem init_two_byte0 (b0 b1 : Nat) : (initChip8 [b0, b1]).ram.getD 0x200 0 = b0 := by
  rw [initChip8_ram, loadBytes_two, List.getD_eq_getElem?_getD]
  rw [List.getElem?_append_right (by rw [fontData_length]; norm_num)]
  rw [fontData_length, List.getElem?_drop]
  rw [show (80 + (0x200 - 80) : Nat) = 0x200 by norm_num]
  rw [List.getElem?_set_ne (by norm_num)]
  rw [List.getElem?_set_self (by rw [List.length_replicate]; norm_num)]
  rfl

theorem init_two_byte1 (b0 b1 : Nat) : (initChip8 [b0, b1]).ram.getD 0x201 0 = b1 := by
  rw [initChip8_ram, loadBytes_two, List.getD_eq_getElem?_getD]
  rw [List.getElem?_append_right (by rw [fontData_length]; norm_num)]
  rw [fontData_length, List.getElem?_drop]
  rw [show (80 + (0x201 - 80) : Nat) = 0x201 by norm_num]
  rw [List.getElem?_set_self (by rw [List.length_set, List.length_replicate]; norm_num)]
  rfl

theorem fetch_clock_update (s : Chip8) (c : Nat) : fetch { s with clock := c } = fetch s := rfl

theorem fetch_init_two (b0 b1 : Nat) : fetch (initChip8 [b0, b1]) = b0 <<< 8 ||| b1 := by
  rw [fetch]
  rw [show (initChip8 [b0, b1]).pc = 0x200 from rfl]
  rw [init_two_byte0, init_two_byte1]

theorem shiftLeft_eight_lor (a b : Nat) (hb : b < 256) : a <<< 8 ||| b = 256 * a + b := by
  have hb' : b < 2 ^ 8 := by omega
  have h1 : a <<< 8 = 2 ^ 8 * a := by rw [Nat.shiftLeft_eq]; ring
  rw [h1]
  apply Nat.eq_of_testBit_eq
  intro j
  rw [Nat.testBit_lor, Nat.testBit_mul_pow_two, Nat.testBit_mul_pow_two_add a hb' j]
  by_cases hj : j < 8
  · have hng : ¬ (j ≥ 8) := by omega
    simp [hj, hng]
  · have hge : j ≥ 8 := by omega
    have hbf : b.testBit j = false :=
      Nat.testBit_lt_two_pow (lt_of_lt_of_le hb' (Nat.pow_le_pow_right (by norm_num) hge))
    simp [hj, hge, hbf]

theorem dxynRows_one (ram : List Nat) (x0 y0 ptr yOff : Nat) (disp : List Nat) :
    dxynRows ram x0 y0 ptr yOff 1 disp =
      pySetSlice disp ((y0 + yOff) * 64 + x0) ((y0 + yOff) + 64 + x0 + 8)
        (toBits8 (ram.getD ptr 0)) := rfl

theorem tickTimers_pc (s : Chip8) : (tickTimers s).pc = s.pc := by
  unfold tickTimers; split <;> rfl

theorem tickTimers_I (s : Chip8) : (tickTimers s).I = s.I := by
  unfold tickTimers; split <;> rfl

theorem tickTimers_display (s : Chip8) : (tickTimers s).display = s.display := by
  unfold tickTimers; split <;> rfl

theorem cycleClock_ok (rand : Nat) (s s1 : Chip8)
    (h : executeOp rand (fetch { s with clock := s.clock + 1 }) { s with clock := s.clock + 1 } =
      PyOutcome.ok s1) :
    cycleClock rand s = PyOutcome.ok (tickTimers { s1 with pc := s1.pc + 2 }) := by
  simp only [cycleClock]
  rw [h]

theorem cycleClock_exn (rand : Nat) (s s1 : Chip8) (k : String)
    (h : executeOp rand (fetch { s with clock := s.clock + 1 }) { s with clock := s.clock + 1 } =
      PyOutcome.exn k s1) :
    cycleClock rand s = PyOutcome.exn k s1 := by
  simp only [cycleClock]
  rw [h]

/-! ## Concrete machine states used by the claims -/

/-- A machine initialised with an empty ROM. -/
def initEmpty : Chip8 := initChip8 []

/-- State with `V[1] = 200`, `V[2] = 100` (operands for `8XY4`). -/
def addState : Chip8 := { initEmpty with V := ((List.replicate 16 0).set 1 200).set 2 100 }

/-- State with `V[1] = 3`, `V[2] = 10` (operands for `8XY5`, the spec's own
borrow example). -/
def subState : Chip8 := { initEmpty with V := ((List.replicate 16 0).set 1 3).set 2 10 }

/-- State with `I = 0x300` and an all-ones sprite byte at `ram[0x300]`,
display blank (setup for `DXYN`). -/
def drawState : Chip8 := { initEmpty with I := 0x300, ram := initEmpty.ram.set 0x300 0xFF }

/-- State with `V[1] = 0x0F`, `V[2] = 0xF0` (operands for `8XY2`). -/
def andState : Chip8 := { initEmpty with V := ((List.replicate 16 0).set 1 0x0F).set 2 0xF0 }

/-- State whose stack pointer says the 16-slot stack is full. -/
def fullSpState : Chip8 := { initEmpty with sp := 16 }

theorem executeOp_jump (rand opcode : Nat) (s : Chip8) (h : opcode &&& 0xF000 = 0x1000) :
    executeOp rand opcode s = PyOutcome.ok (op_1NNN opcode s) := by
  simp only [executeOp, h]
  norm_num

theorem executeOp_setI (rand opcode : Nat) (s : Chip8) (h : opcode &&& 0xF000 = 0xA000) :
    executeOp rand opcode s = PyOutcome.ok (op_ANNN opcode s) := by
  simp only [executeOp, h]
  norm_num

theorem executeOp_draw (rand opcode : Nat) (s : Chip8) (h : opcode &&& 0xF000 = 0xD000) :
    executeOp rand opcode s = PyOutcome.ok (op_DXYN opcode s) := by
  simp only [executeOp, h]
  norm_num

theorem executeOp_zero_mask (rand opcode : Nat) (s : Chip8) (h : opcode &&& 0xF000 = 0) :
    executeOp rand opcode s = PyOutcome.exn "KeyError" s := by
  simp only [executeOp, h]
  norm_num

/-! ## Claim theorems -/

/-- Claim C1: the spec says `8XY4` must set VF to 1 exactly when the unwrapped
sum exceeds 255.  The code tests `sum > 0xFFFF` instead: with `V[1] = 200` and
`V[2] = 100` (sum 300 > 255) executing opcode `0x8124` leaves `VF = 0`
(while `V[1]` does get `300 % 256 = 44`). -/
theorem op_8XY4_overflow_flag_dead :
    (op_8XY4 0x8124 addState).V.getD 1 0 = 44 ∧
    (op_8XY4 0x8124 addState).V.getD 0xF 0 = 0 ∧ 255 < 200 + 100 := by
  decide

/-- Claim C2: the spec says `8XY5` computes `V[X] - V[Y]` with a no-borrow
flag.  The code adds instead of subtracting, sets `VF := int(sub > 0)` and
then raises `TypeError` (line 177 applies `_8bit` to the Python builtin
`sum`).  With the spec's own example `V[1] = 3`, `V[2] = 10`, the claim wants
`V[1] = 249`, `VF = 0`; the code sets `VF = 1` and crashes. -/
theorem op_8XY5_raises_type_error :
    (op_8XY5 0x8125 subState).exnKind = some "TypeError" ∧
    (op_8XY5 0x8125 subState).state.V.getD 0xF 0 = 1 ∧
    subState.V.getD 1 0 = 3 ∧ subState.V.getD 2 0 = 10 := by
  decide

/-- Claim C3: the spec says `DXYN` XORs the sprite at `(V[X] mod 64,
V[Y] mod 32)` with collision reported in VF.  The code ignores the registers
(and the modulo), performs a plain slice assignment whose end index `y + 64 +
x0 + 8` is wrong, and never writes VF: drawing an all-ones byte with opcode
`0xD001` on a blank display replaces the 72-cell slice `display[0:72]` by the
8 sprite bits, shrinking the display to 1984 cells, with `V` untouched. -/
theorem op_DXYN_ignores_registers_and_resizes_display :
    (op_DXYN 0xD001 drawState).display.length = 1984 ∧
    drawState.display.length = 2048 ∧
    (op_DXYN 0xD001 drawState).V = drawState.V := by
  refine ⟨?_, ?_, rfl⟩
  · have hdisp : drawState.display = List.replicate (64 * 32) 0 := rfl
    have hx : (0xD001 &&& 0x0F00 : Nat) = 0 := by decide
    have hy : (0xD001 &&& 0x00F0 : Nat) = 0 := by decide
    have hh : (0xD001 &&& 0x000F : Nat) = 1 := by decide
    simp only [op_DXYN, hx, hy, hh, dxynRows_one, hdisp]
    rw [length_pySetSlice, length_toBits8, List.length_replicate]
    omega
  · have hdisp : drawState.display = List.replicate (64 * 32) 0 := rfl
    rw [hdisp, List.length_replicate]

/-- Claim C4: the spec says that after a full cycle executing `1NNN` the PC
equals NNN exactly.  The loop adds its generic `pc += 2` on top of the jump:
a cycle fetching `0x1234` ends with `pc = 0x236`, not `0x234`. -/
theorem cycle_1NNN_double_advance :
    (cycleClock 0 (initChip8 [0x12, 0x34])).exnKind = none ∧
    (cycleClock 0 (initChip8 [0x12, 0x34])).state.pc = 0x236 ∧
    (0x236 : Nat) ≠ 0x1234 &&& 0x0FFF := by
  have hf : fetch { initChip8 [0x12, 0x34] with clock := (initChip8 [0x12, 0x34]).clock + 1 } =
      0x1234 := by
    rw [fetch_clock_update, fetch_init_two]; decide
  have he : executeOp 0
      (fetch { initChip8 [0x12, 0x34] with clock := (initChip8 [0x12, 0x34]).clock + 1 })
      { initChip8 [0x12, 0x34] with clock := (initChip8 [0x12, 0x34]).clock + 1 } =
      PyOutcome.ok (op_1NNN 0x1234
        { initChip8 [0x12, 0x34] with clock := (initChip8 [0x12, 0x34]).clock + 1 }) := by
    rw [hf]
    exact executeOp_jump 0 0x1234 _ (by decide)
  rw [cycleClock_ok 0 _ _ he]
  refine ⟨rfl, ?_, by decide⟩
  rw [PyOutcome.state, tickTimers_pc]
  simp only [op_1NNN]
  decide

/-- Claim C5: the spec says `2NNN` pushes the PC and increments SP.  The code
stores the PC at `stack[sp]` and jumps but never increments `sp`: executing
`0x2345` from the initial state leaves `sp = 0`. -/
theorem op_2NNN_leaves_sp_unchanged :
    (op_2NNN 0x2345 initEmpty).exnKind = none ∧
    (op_2NNN 0x2345 initEmpty).state.sp = initEmpty.sp ∧ initEmpty.sp = 0 ∧
    (op_2NNN 0x2345 initEmpty).state.pc = 0x345 ∧
    (op_2NNN 0x2345 initEmpty).state.stack.getD 0 none = some 0x200 := by
  decide

/-- Claim C6: the spec says `8XY2` stores `V[X] AND V[Y]` into `V[X]`, leaving
`V[Y]` unchanged.  Line 164 writes the result into index `(opcode & 0x00F0) >>
4`, i.e. `V[Y]`: with `V[1] = 0x0F`, `V[2] = 0xF0`, opcode `0x8122` leaves
`V[1] = 0x0F` and overwrites `V[2]` with `0`. -/
theorem op_8XY2_writes_result_into_VY :
    (op_8XY2 0x8122 andState).V.getD 1 0 = 0x0F ∧
    (op_8XY2 0x8122 andState).V.getD 2 0 = 0 ∧
    andState.V.getD 2 0 = 0xF0 := by
  decide

/-- Claim C7: the fetch combines `ram[pc]` and `ram[pc+1]` big-endian into
`ram[pc] * 256 + ram[pc+1]` (for byte-valued cells), and a machine whose ROM
starts with `0xA2 0xF0` gets `I = 0x2F0` after one cycle. -/
theorem fetch_big_endian (s : Chip8) (h : s.ram.getD (s.pc + 1) 0 < 256) :
    fetch s = 256 * s.ram.getD s.pc 0 + s.ram.getD (s.pc + 1) 0 ∧
    (cycleClock 0 (initChip8 [0xA2, 0xF0])).state.I = 0x2F0 := by
  constructor
  · rw [fetch]
    exact shiftLeft_eight_lor _ _ h
  · have hf : fetch { initChip8 [0xA2, 0xF0] with clock := (initChip8 [0xA2, 0xF0]).clock + 1 } =
        0xA2F0 := by
      rw [fetch_clock_update, fetch_init_two]; decide
    have he : executeOp 0
        (fetch { initChip8 [0xA2, 0xF0] with clock := (initChip8 [0xA2, 0xF0]).clock + 1 })
        { initChip8 [0xA2, 0xF0] with clock := (initChip8 [0xA2, 0xF0]).clock + 1 } =
        PyOutcome.ok (op_ANNN 0xA2F0
          { initChip8 [0xA2, 0xF0] with clock := (initChip8 [0xA2, 0xF0]).clock + 1 }) := by
      rw [hf]
      exact executeOp_setI 0 0xA2F0 _ (by decide)
    rw [cycleClock_ok 0 _ _ he]
    rw [PyOutcome.state, tickTimers_I]
    simp only [op_ANNN]
    decide

/-- Witness for C7 at the machine loaded with the ROM `0xA2 0xF0`: the byte at
`pc + 1` is `0xF0 < 256`, the fetched word is `0xA2 * 256 + 0xF0`, and the
cycle sets `I = 0x2F0`. -/
theorem fetch_big_endian_witness :
    fetch (initChip8 [0xA2, 0xF0]) =
      256 * (initChip8 [0xA2, 0xF0]).ram.getD (initChip8 [0xA2, 0xF0]).pc 0 +
        (initChip8 [0xA2, 0xF0]).ram.getD ((initChip8 [0xA2, 0xF0]).pc + 1) 0 ∧
    (cycleClock 0 (initChip8 [0xA2, 0xF0])).state.I = 0x2F0 :=
  fetch_big_endian (initChip8 [0xA2, 0xF0]) (by
    rw [show (initChip8 [0xA2, 0xF0]).pc = 0x200 from rfl]
    rw [show (0x200 + 1 : Nat) = 0x201 from rfl]
    rw [init_two_byte1]
    norm_num)

/-- Claim C8: the spec requires stack overflow (call with 16 entries) and
underflow (return on an empty stack) to be explicitly detected and reported.
The code has neither: `00EE` is not even in the dispatch table (a cycle
fetching it dies with a raw dict `KeyError`), and a call with `sp = 16` dies
with a raw list `IndexError` from `stack[16] = pc`, not an explicit check. -/
theorem stack_overflow_underflow_unhandled :
    (cycleClock 0 (initChip8 [0x00, 0xEE])).exnKind = some "KeyError" ∧
    (op_2NNN 0x2222 fullSpState).exnKind = some "IndexError" ∧
    fullSpState.stack.length = 16 := by
  refine ⟨?_, by decide, by decide⟩
  have hf : fetch { initChip8 [0x00, 0xEE] with clock := (initChip8 [0x00, 0xEE]).clock + 1 } =
      0x00EE := by
    rw [fetch_clock_update, fetch_init_two]; decide
  have he : executeOp 0
      (fetch { initChip8 [0x00, 0xEE] with clock := (initChip8 [0x00, 0xEE]).clock + 1 })
      { initChip8 [0x00, 0xEE] with clock := (initChip8 [0x00, 0xEE]).clock + 1 } =
      PyOutcome.exn "KeyError"
        { initChip8 [0x00, 0xEE] with clock := (initChip8 [0x00, 0xEE]).clock + 1 } := by
    rw [hf]
    exact executeOp_zero_mask 0 0x00EE _ (by decide)
  rw [cycleClock_exn 0 _ _ _ he]
  rfl

/-- Claim C9: the spec says the display stays a 64*32 grid of 2048 one-bit
cells under every instruction.  A single cycle of the reachable machine
`initChip8 [0xD0, 0x11]` executes `DXYN` whose slice assignment
`display[1024:88] = row` inserts 8 cells at index 1024, growing the display
to 2056 cells. -/
theorem op_DXYN_breaks_display_invariant :
    (initChip8 [0xD0, 0x11]).display.length = 2048 ∧
    (cycleClock 0 (initChip8 [0xD0, 0x11])).exnKind = none ∧
    (cycleClock 0 (initChip8 [0xD0, 0x11])).state.display.length = 2056 := by
  have hf : fetch { initChip8 [0xD0, 0x11] with clock := (initChip8 [0xD0, 0x11]).clock + 1 } =
      0xD011 := by
    rw [fetch_clock_update, fetch_init_two]; decide
  have he : executeOp 0
      (fetch { initChip8 [0xD0, 0x11] with clock := (initChip8 [0xD0, 0x11]).clock + 1 })
      { initChip8 [0xD0, 0x11] with clock := (initChip8 [0xD0, 0x11]).clock + 1 } =
      PyOutcome.ok (op_DXYN 0xD011
        { initChip8 [0xD0, 0x11] with clock := (initChip8 [0xD0, 0x11]).clock + 1 }) := by
    rw [hf]
    exact executeOp_draw 0 0xD011 _ (by decide)
  refine ⟨?_, ?_, ?_⟩
  · rw [show (initChip8 [0xD0, 0x11]).display = List.replicate (64 * 32) 0 from rfl,
      List.length_replicate]
  · rw [cycleClock_ok 0 _ _ he]
    rfl
  · rw [cycleClock_ok 0 _ _ he]
    rw [PyOutcome.state, tickTimers_display]
    have hx : (0xD011 &&& 0x0F00 : Nat) = 0 := by decide
    have hy : (0xD011 &&& 0x00F0 : Nat) = 16 := by decide
    have hh : (0xD011 &&& 0x000F : Nat) = 1 := by decide
    have hdisp : (initChip8 [0xD0, 0x11]).display = List.replicate (64 * 32) 0 := rfl
    show (op_DXYN 0xD011
      { initChip8 [0xD0, 0x11] with clock := (initChip8 [0xD0, 0x11]).clock + 1 }).display.length
      = 2056
    simp only [op_DXYN, hx, hy, hh, dxynRows_one, hdisp]
    rw [length_pySetSlice, length_toBits8, List.length_replicate]
    omega

/-- Claim C10: each of the conditional skips `3XNN`, `4XNN`, `5XY0` changes at
most the program counter: registers, ram, `I`, stack, `sp`, the two timers,
the display and even the clock are untouched for every opcode and state. -/
theorem skip_ops_touch_only_pc (opcode : Nat) (s : Chip8) :
    ((op_3XNN opcode s).ram = s.ram ∧ (op_3XNN opcode s).V = s.V ∧ (op_3XNN opcode s).I = s.I ∧
     (op_3XNN opcode s).stack = s.stack ∧ (op_3XNN opcode s).sp = s.sp ∧
     (op_3XNN opcode s).t_delay = s.t_delay ∧ (op_3XNN opcode s).t_sound = s.t_sound ∧
     (op_3XNN opcode s).display = s.display ∧ (op_3XNN opcode s).clock = s.clock) ∧
    ((op_4XNN opcode s).ram = s.ram ∧ (op_4XNN opcode s).V = s.V ∧ (op_4XNN opcode s).I = s.I ∧
     (op_4XNN opcode s).stack = s.stack ∧ (op_4XNN opcode s).sp = s.sp ∧
     (op_4XNN opcode s).t_delay = s.t_delay ∧ (op_4XNN opcode s).t_sound = s.t_sound ∧
     (op_4XNN opcode s).display = s.display ∧ (op_4XNN opcode s).clock = s.clock) ∧
    ((op_5XY0 opcode s).ram = s.ram ∧ (op_5XY0 opcode s).V = s.V ∧ (op_5XY0 opcode s).I = s.I ∧
     (op_5XY0 opcode s).stack = s.stack ∧ (op_5XY0 opcode s).sp = s.sp ∧
     (op_5XY0 opcode s).t_delay = s.t_delay ∧ (op_5XY0 opcode s).t_sound = s.t_sound ∧
     (op_5XY0 opcode s).display = s.display ∧ (op_5XY0 opcode s).clock = s.clock) := by
  unfold op_3XNN op_4XNN op_5XY0
  refine ⟨?_, ?_, ?_⟩ <;> split <;> simp
